import Mathlib

/-!
Shallow embedding of the screen-share relay server in src/server/main.py.

The server keeps two module-level pieces of shared state: a single optional
producer WebSocket (line 17) and a set of viewer WebSockets (line 16).  Three
handlers act on them: ws_producer (lines 113-142), ws_viewer (lines 144-164)
and health (lines 166-169), plus the helper _broadcast_control (lines 109-111).

Connections are modelled by numeric identifiers.  The network effects of a
handler run are recorded as a trace of events (text sends, binary sends,
closes).  asyncio.gather is modelled by its documented semantics: with
return_exceptions=True it never raises and collects per-task exceptions; with
the default it re-raises as soon as any task raised.  Whether a send to a
given connection fails is an environment parameter fails : ConnId -> Bool.
Python sets are modelled by duplicate-free lists: set.add appends when absent,
set.discard filters the element out, len is the list length.
-/

namespace ScreenShare

/-- A connection handle (one per accepted WebSocket). -/
abbrev ConnId := Nat

/-- Observable network actions performed by the server. -/
inductive Event where
  | sendText (target : ConnId) (msg : String)
  | sendBytes (target : ConnId) (data : List Nat)
  | close (target : ConnId) (code : Nat)
deriving DecidableEq, Repr

/-- The module-level mutable state of main.py: the producer slot
(line 17, producer: WebSocket | None = None) and the viewer set
(line 16, viewers: Set[WebSocket] = set()). -/
structure ServerState where
  producer : Option ConnId
  viewers : List ConnId
deriving DecidableEq, Repr

/-- Python set.add: insert the element when it is not already a member. -/
def addViewer (vs : List ConnId) (c : ConnId) : List ConnId :=
  if c ∈ vs then vs else vs ++ [c]

/-- Python set.discard: remove the element from the set (a set holds it at
most once, so removing every copy from the duplicate-free list model agrees). -/
def viewerDiscard (vs : List ConnId) (c : ConnId) : List ConnId :=
  vs.filter (fun v => v ≠ c)

/-- Whether asyncio.gather raises: with return_exceptions=True (re = true) it
never raises and returns exceptions as values; with the default (re = false)
it re-raises if any gathered send raised. -/
def gatherRaises (re : Bool) (fails : ConnId → Bool) (targets : List ConnId) : Bool :=
  if re then false else targets.any fails

/-- A WebSocket object is always truthy, so the comprehension filter
"for v in list(viewers) if v" on line 134 never drops anything. -/
def wsTruthy (_ : ConnId) : Bool := true

/-- _broadcast_control (main.py lines 109-111): if viewers is nonempty, gather
send_text(message) over a snapshot list(viewers).  No return_exceptions, so a
failing send makes the await raise (second component). -/
def broadcast_control (vs : List ConnId) (msg : String) (fails : ConnId → Bool) :
    List Event × Bool :=
  if vs.isEmpty then ([], false)
  else (vs.map (fun v => Event.sendText v msg), gatherRaises false fails vs)

/-- The per-frame fan-out in ws_producer (main.py lines 133-134): if viewers
is nonempty, gather send_bytes(data) over a snapshot list(viewers) with
return_exceptions=True, so the await never raises. -/
def frameFanOut (vs : List ConnId) (data : List Nat) (fails : ConnId → Bool) :
    List Event × Bool :=
  if vs.isEmpty then ([], false)
  else ((vs.filter wsTruthy).map (fun v => Event.sendBytes v data),
        gatherRaises true fails (vs.filter wsTruthy))

/-- Outcome of the producer acceptance check (main.py lines 119-125): if the
slot is occupied, close the new connection with code 4000 and change nothing;
otherwise store the connection in the slot.  The check and the assignment are
in one synchronous block with no await between them. -/
inductive Decision where
  | accepted
  | rejected (closeCode : Nat)
deriving DecidableEq, Repr

/-- The check-and-claim of ws_producer (main.py lines 119-125). -/
def claimProducer (s : ServerState) (c : ConnId) : ServerState × Decision :=
  if s.producer.isSome then (s, Decision.rejected 4000)
  else ({ s with producer := some c }, Decision.accepted)

/-- The receive loop body of ws_producer (main.py lines 128-134): each
received payload is dropped when its length is 0 (continue), otherwise fanned
out to the viewer snapshot.  The fan-out never raises (return_exceptions), so
the loop always reaches the next receive. -/
def processFrames (vs : List ConnId) (fails : ConnId → Bool) :
    List (List Nat) → List Event
  | [] => []
  | data :: rest =>
      if data.length = 0 then processFrames vs fails rest
      else (frameFanOut vs data fails).1 ++ processFrames vs fails rest

/-- The finally block of ws_producer (main.py lines 139-142): clear the slot,
then broadcast producer:disconnected to the current viewers. -/
def producerCleanup (s : ServerState) (fails : ConnId → Bool) :
    ServerState × List Event :=
  let s' : ServerState := { s with producer := none }
  (s', (broadcast_control s'.viewers "producer:disconnected" fails).1)

/-- A full run of ws_producer (main.py lines 113-142) after the transport
accept.  frames is the sequence of binary payloads received before the
connection's receive finally raises (WebSocketDisconnect or any other
exception, both caught by lines 135-138).  The producer:connected broadcast on
line 126 stands before the try block: when it raises (a viewer send failed and
gather has no return_exceptions), the handler exits without ever entering the
try, so the finally block does not run. -/
def runProducer (s : ServerState) (c : ConnId) (frames : List (List Nat))
    (fails : ConnId → Bool) : ServerState × List Event :=
  match claimProducer s c with
  | (_, Decision.rejected code) => (s, [Event.close c code])
  | (s1, Decision.accepted) =>
      let bc := broadcast_control s1.viewers "producer:connected" fails
      if bc.2 then (s1, bc.1)
      else
        let evs := processFrames s1.viewers fails frames
        let cl := producerCleanup s1 fails
        (cl.1, bc.1 ++ evs ++ cl.2)

/-- Messages a viewer connection can produce at ws.receive_text
(main.py line 156): a text frame is returned and ignored by the loop; a
binary frame makes receive_text raise (the ASGI receive message carries no
text key), caught by the except on lines 160-161; a disconnect raises
WebSocketDisconnect, caught on lines 158-159. -/
inductive ViewerMsg where
  | text (s : String)
  | binary (b : List Nat)
  | disconnect
deriving DecidableEq, Repr

/-- Whether the viewer receive loop is still waiting for input (connection
open) or has exited through an exception. -/
inductive LoopOutcome where
  | running
  | exited
deriving DecidableEq, Repr

/-- The receive loop of ws_viewer (main.py lines 154-157): text messages are
ignored and the loop continues; a binary message or a disconnect raises out of
receive_text and ends the loop. -/
def viewerLoop : List ViewerMsg → LoopOutcome
  | [] => LoopOutcome.running
  | ViewerMsg.text _ :: rest => viewerLoop rest
  | ViewerMsg.binary _ :: _ => LoopOutcome.exited
  | ViewerMsg.disconnect :: _ => LoopOutcome.exited

/-- The unconditional viewer admission of ws_viewer (main.py lines 146-147):
accept, then viewers.add(ws).  No await separates the add from the start of
the initial send_text, so no other task interleaves between them. -/
def joinViewer (s : ServerState) (c : ConnId) : ServerState :=
  { s with viewers := addViewer s.viewers c }

/-- The initial state message of ws_viewer (main.py lines 150-153):
producer:disconnected when the slot is empty, producer:connected otherwise. -/
def presenceMessage (s : ServerState) : String :=
  if s.producer = none then "producer:disconnected" else "producer:connected"

/-- The finally block of ws_viewer (main.py lines 162-163):
viewers.discard(ws). -/
def viewerCleanup (s : ServerState) (c : ConnId) : ServerState :=
  { s with viewers := viewerDiscard s.viewers c }

/-- Result of a ws_viewer run: final shared state, the session's send trace,
and whether the loop is still waiting on the connection. -/
structure ViewerRun where
  final : ServerState
  trace : List Event
  outcome : LoopOutcome
deriving DecidableEq, Repr

/-- A full run of ws_viewer (main.py lines 144-164) after the transport
accept: add to the set, send the presence message (selfFails tells whether
that first send itself raises), then loop over the connection's input.  Every
exception path runs the finally and discards the viewer. -/
def runViewer (s : ServerState) (c : ConnId) (selfFails : Bool)
    (msgs : List ViewerMsg) : ViewerRun :=
  let s1 := joinViewer s c
  let firstEv := Event.sendText c (presenceMessage s1)
  if selfFails then
    { final := viewerCleanup s1 c, trace := [firstEv], outcome := LoopOutcome.exited }
  else
    match viewerLoop msgs with
    | LoopOutcome.running =>
        { final := s1, trace := [firstEv], outcome := LoopOutcome.running }
    | LoopOutcome.exited =>
        { final := viewerCleanup s1 c, trace := [firstEv], outcome := LoopOutcome.exited }

/-- Shape of the health response (main.py lines 167-169). -/
structure HealthResponse where
  status : String
  producer_connected : Bool
  viewer_count : Nat
deriving DecidableEq, Repr

/-- The health endpoint (main.py lines 167-169). -/
def health (s : ServerState) : HealthResponse :=
  { status := "ok"
    producer_connected := s.producer.isSome
    viewer_count := s.viewers.length }

/-- A concurrent membership change on the viewer set (another task running
viewers.add or viewers.discard while a fan-out's sends are in flight). -/
inductive Mutation where
  | add (c : ConnId)
  | remove (c : ConnId)
deriving DecidableEq, Repr

/-- Apply one concurrent membership change. -/
def applyMutation (vs : List ConnId) : Mutation → List ConnId
  | Mutation.add c => addViewer vs c
  | Mutation.remove c => viewerDiscard vs c

/-- A fan-out interleaved with concurrent membership changes: both broadcast
sites iterate a snapshot list(viewers) taken when the gather starts
(main.py lines 111 and 134), so the sends walk the snapshot while the live
set vs may mutate between sends (muts gives the changes landing before each
send).  Returns the live set after the fan-out and the send trace. -/
def snapshotFanOut (mk : ConnId → Event) :
    List ConnId → List (List Mutation) → List ConnId → List ConnId × List Event
  | [], _, vs => (vs, [])
  | v :: rest, muts, vs =>
      let vs1 := (muts.headD []).foldl applyMutation vs
      let r := snapshotFanOut mk rest muts.tail vs1
      (r.1, mk v :: r.2)

/-- The control broadcast attempts a send_text to exactly the members of the
snapshot (the isEmpty guard only skips an empty gather). -/
theorem broadcast_control_fst (vs : List ConnId) (msg : String)
    (fails : ConnId → Bool) :
    (broadcast_control vs msg fails).1 = vs.map (fun v => Event.sendText v msg) := by
  cases vs <;> simp [broadcast_control]

/-- The truthiness filter of the comprehension on line 134 drops nothing. -/
theorem filter_wsTruthy (l : List ConnId) : l.filter wsTruthy = l := by
  induction l with
  | nil => rfl
  | cons a l ih => simp [List.filter, wsTruthy, ih]

/-- The frame fan-out attempts a send_bytes to exactly the members of the
snapshot: the truthiness filter keeps everything. -/
theorem frameFanOut_fst (vs : List ConnId) (data : List Nat)
    (fails : ConnId → Bool) :
    (frameFanOut vs data fails).1 = vs.map (fun v => Event.sendBytes v data) := by
  cases vs <;> simp [frameFanOut, filter_wsTruthy]

/-- With return_exceptions=True the frame fan-out never raises. -/
theorem frameFanOut_snd (vs : List ConnId) (data : List Nat)
    (fails : ConnId → Bool) : (frameFanOut vs data fails).2 = false := by
  cases vs <;> simp [frameFanOut, gatherRaises]

/-- The receive loop processes its input frame by frame. -/
theorem processFrames_append (vs : List ConnId) (fails : ConnId → Bool)
    (a b : List (List Nat)) :
    processFrames vs fails (a ++ b) =
      processFrames vs fails a ++ processFrames vs fails b := by
  induction a with
  | nil => simp [processFrames]
  | cons f rest ih =>
      by_cases h : f.length = 0 <;> simp [processFrames, h, ih]

/-- Adding a connection to the viewer set makes it a member. -/
theorem mem_addViewer (vs : List ConnId) (c : ConnId) : c ∈ addViewer vs c := by
  by_cases h : c ∈ vs <;> simp [addViewer, h]

/-- Discarding a connection removes it from the viewer set. -/
theorem not_mem_viewerDiscard (vs : List ConnId) (c : ConnId) :
    c ∉ viewerDiscard vs c := by
  simp [viewerDiscard]

/-- A viewer input consisting only of text messages keeps the receive loop
running. -/
theorem viewerLoop_all_text (ms : List ViewerMsg)
    (hm : ∀ m ∈ ms, ∃ t, m = ViewerMsg.text t) :
    viewerLoop ms = LoopOutcome.running := by
  induction ms with
  | nil => rfl
  | cons m rest ih =>
      obtain ⟨t, ht⟩ := hm m (List.mem_cons_self m rest)
      subst ht
      simpa [viewerLoop] using ih (fun x hx => hm x (List.mem_cons_of_mem _ hx))

/-- C1.  A producer attempt is accepted exactly when the slot is empty at the
check; an attempt against an occupied slot ends as a close with code 4000 and
leaves the whole shared state (slot and viewer set) unchanged. -/
theorem producer_accept_iff_slot_empty (s : ServerState) (c : ConnId)
    (frames : List (List Nat)) (fails : ConnId → Bool) :
    ((claimProducer s c).2 = Decision.accepted ↔ s.producer = none) ∧
    (s.producer ≠ none →
      runProducer s c frames fails = (s, [Event.close c 4000])) := by
  constructor
  · cases h : s.producer <;> simp [claimProducer, h]
  · intro h
    cases h' : s.producer with
    | none => exact absurd h' h
    | some p => simp [runProducer, claimProducer, h']

theorem producer_accept_iff_slot_empty_witness :
    (({ producer := some 9, viewers := [4] } : ServerState).producer ≠ none) ∧
    runProducer { producer := some 9, viewers := [4] } 1 [[2]] (fun _ => false) =
      ({ producer := some 9, viewers := [4] }, [Event.close 1 4000]) :=
  ⟨by decide,
   (producer_accept_iff_slot_empty { producer := some 9, viewers := [4] } 1
      [[2]] (fun _ => false)).2 (by decide)⟩

/-- C2.  Concrete run showing the code misses an exit path: the slot is empty,
viewer 7 is joined but its sends fail.  Producer 1 is accepted and claims the
slot, then the producer:connected broadcast (line 126, before the try block)
raises, so the finally block never runs: the slot still holds producer 1 and
no producer:disconnected is ever broadcast, contradicting the claimed
cleanup-on-every-exit-path. -/
theorem producer_broadcast_fault_skips_cleanup :
    (runProducer { producer := none, viewers := [7] } 1 [] (fun v => v == 7)).1 =
      { producer := some 1, viewers := [7] } ∧
    Event.sendText 7 "producer:disconnected" ∉
      (runProducer { producer := none, viewers := [7] } 1 [] (fun v => v == 7)).2 := by
  decide

/-- C7.  Reject-then-retry scenario: from an empty slot, producer A (id 1) is
accepted; producer B (id 2) is then rejected, its run closing B with code 4000
and changing no state; after A's cleanup the slot is empty again and producer
C (id 3) is accepted. -/
theorem reject_then_retry_scenario :
    (claimProducer { producer := none, viewers := [] } 1).2 = Decision.accepted ∧
    runProducer (claimProducer { producer := none, viewers := [] } 1).1 2 []
        (fun _ => false) =
      ((claimProducer { producer := none, viewers := [] } 1).1,
        [Event.close 2 4000]) ∧
    (producerCleanup (claimProducer { producer := none, viewers := [] } 1).1
        (fun _ => false)).1.producer = none ∧
    (claimProducer
        (producerCleanup (claimProducer { producer := none, viewers := [] } 1).1
          (fun _ => false)).1 3).2 = Decision.accepted := by
  decide

/-- C8.  The health endpoint reports status ok, a producer_connected flag that
is true exactly when the slot is occupied, and the cardinality of the viewer
set. -/
theorem health_reports_state (s : ServerState) :
    (health s).status = "ok" ∧
    ((health s).producer_connected = true ↔ s.producer ≠ none) ∧
    (health s).viewer_count = s.viewers.length := by
  refine ⟨rfl, ?_, rfl⟩
  simp [health, Option.isSome_iff_ne_none]

/-- C3.  Viewer admission always succeeds and adds the connection to the
viewer set; the session's first send to the viewer is the presence control
message, producer:connected exactly when the slot is occupied, and it stands
at the head of the session trace, before the loop processes any input. -/
theorem viewer_join_initial_presence (s : ServerState) (c : ConnId)
    (selfFails : Bool) (msgs : List ViewerMsg) :
    c ∈ (joinViewer s c).viewers ∧
    (runViewer s c selfFails msgs).trace.head? =
      some (Event.sendText c
        (if s.producer.isSome then "producer:connected"
         else "producer:disconnected")) := by
  have hp : presenceMessage (joinViewer s c) =
      (if s.producer.isSome then "producer:connected"
       else "producer:disconnected") := by
    cases h : s.producer <;> simp [presenceMessage, joinViewer, h]
  refine ⟨mem_addViewer s.viewers c, ?_⟩
  cases hf : selfFails <;> cases hl : viewerLoop msgs <;>
    simp [runViewer, hf, hl, hp]

/-- C4.  Per-viewer send failures during the frame fan-out are isolated: the
gather never raises toward the producer, every member of the snapshot still
gets its send attempted (so delivery to every non-failing viewer completes),
and any viewer whose session exits (as a broken connection's does, its own
receive raising) is removed from the viewer set by its cleanup. -/
theorem fanout_failure_isolation (vs : List ConnId) (data : List Nat)
    (fails : ConnId → Bool) :
    (frameFanOut vs data fails).2 = false ∧
    (∀ v ∈ vs, Event.sendBytes v data ∈ (frameFanOut vs data fails).1) ∧
    (∀ (s : ServerState) (c : ConnId) (selfFails : Bool) (msgs : List ViewerMsg),
      (runViewer s c selfFails msgs).outcome = LoopOutcome.exited →
        c ∉ (runViewer s c selfFails msgs).final.viewers) := by
  refine ⟨frameFanOut_snd vs data fails, ?_, ?_⟩
  · intro v hv
    rw [frameFanOut_fst]
    exact List.mem_map_of_mem _ hv
  · intro s c selfFails msgs h
    cases hf : selfFails <;> cases hl : viewerLoop msgs <;>
      simp [runViewer, hf, hl, viewerCleanup, viewerDiscard] at h ⊢

theorem fanout_failure_isolation_witness :
    (frameFanOut [1, 2, 3] [9] (fun v => v == 1)).2 = false ∧
    Event.sendBytes 2 [9] ∈ (frameFanOut [1, 2, 3] [9] (fun v => v == 1)).1 ∧
    1 ∉ (runViewer { producer := none, viewers := [2, 3] } 1 false
          [ViewerMsg.disconnect]).final.viewers :=
  ⟨(fanout_failure_isolation [1, 2, 3] [9] (fun v => v == 1)).1,
   (fanout_failure_isolation [1, 2, 3] [9] (fun v => v == 1)).2.1 2 (by decide),
   (fanout_failure_isolation [1, 2, 3] [9] (fun v => v == 1)).2.2
     { producer := none, viewers := [2, 3] } 1 false [ViewerMsg.disconnect]
     (by decide)⟩

/-- C5.  A zero-length payload is a no-op: the loop emits no send for it and
a producer run with the empty frame inserted anywhere in its input equals the
run without it — no viewer receives anything for it, nothing raises, and the
subsequent frames are processed unchanged. -/
theorem zero_length_frame_noop (s : ServerState) (c : ConnId) (vs : List ConnId)
    (pre rest : List (List Nat)) (fails : ConnId → Bool) :
    processFrames vs fails ([] :: rest) = processFrames vs fails rest ∧
    runProducer s c (pre ++ [] :: rest) fails = runProducer s c (pre ++ rest) fails := by
  constructor
  · simp [processFrames]
  · unfold runProducer
    rcases hc : claimProducer s c with ⟨s1, d⟩
    cases d <;> simp [processFrames_append, processFrames]

/-- C6.  An accepted producer first claims the slot, and its run's trace
starts with the producer:connected broadcast to exactly the viewers present
at claim time; no frame send occurs among that broadcast prefix, so the
broadcast completes before any frame is forwarded. -/
theorem claim_then_broadcast_before_frames (s : ServerState) (c : ConnId)
    (frames : List (List Nat)) (fails : ConnId → Bool) (h : s.producer = none) :
    claimProducer s c = ({ s with producer := some c }, Decision.accepted) ∧
    (∃ tail, (runProducer s c frames fails).2 =
      s.viewers.map (fun v => Event.sendText v "producer:connected") ++ tail) ∧
    (∀ v d, Event.sendBytes v d ∉
      s.viewers.map (fun w => Event.sendText w "producer:connected")) := by
  refine ⟨by simp [claimProducer, h], ?_, by intro v d; simp⟩
  have hb1 : (broadcast_control s.viewers "producer:connected" fails).1 =
      s.viewers.map (fun v => Event.sendText v "producer:connected") :=
    broadcast_control_fst _ _ _
  by_cases hb : (broadcast_control s.viewers "producer:connected" fails).2
  · exact ⟨[], by simp [runProducer, claimProducer, h, hb, hb1]⟩
  · refine ⟨processFrames s.viewers fails frames ++
      (producerCleanup { s with producer := some c } fails).2, ?_⟩
    simp [runProducer, claimProducer, h, hb, hb1]

theorem claim_then_broadcast_before_frames_witness :
    (({ producer := none, viewers := [4] } : ServerState).producer = none) ∧
    (claimProducer { producer := none, viewers := [4] } 1 =
        ({ producer := some 1, viewers := [4] }, Decision.accepted) ∧
      (∃ tail,
        (runProducer { producer := none, viewers := [4] } 1 [[2]]
            (fun _ => false)).2 =
          ([4] : List ConnId).map
            (fun v => Event.sendText v "producer:connected") ++ tail) ∧
      (∀ v d, Event.sendBytes v d ∉
        ([4] : List ConnId).map
          (fun w => Event.sendText w "producer:connected"))) :=
  ⟨rfl, claim_then_broadcast_before_frames
    { producer := none, viewers := [4] } 1 [[2]] (fun _ => false) rfl⟩

/-- C9, counterexample.  A binary message from a joined viewer is not ignored:
receive_text raises on it, the loop exits and the finally removes the viewer
from the set, so the connection does not stay open and the viewer does not
remain a member. -/
theorem viewer_binary_message_not_ignored :
    (runViewer { producer := none, viewers := [] } 5 false
        [ViewerMsg.binary [1]]).outcome = LoopOutcome.exited ∧
    5 ∉ (runViewer { producer := none, viewers := [] } 5 false
        [ViewerMsg.binary [1]]).final.viewers := by
  decide

/-- C9, amended.  Every text message an active viewer sends is ignored
without error: after any all-text input the loop is still waiting on the
connection and the viewer is still a member of the viewer set. -/
theorem viewer_text_messages_ignored (s : ServerState) (c : ConnId)
    (msgs : List ViewerMsg)
    (h : ∀ m ∈ msgs, ∃ t, m = ViewerMsg.text t) :
    (runViewer s c false msgs).outcome = LoopOutcome.running ∧
    c ∈ (runViewer s c false msgs).final.viewers := by
  have hl := viewerLoop_all_text msgs h
  constructor
  · simp [runViewer, hl]
  · simp [runViewer, hl, joinViewer]
    exact mem_addViewer s.viewers c

theorem viewer_text_messages_ignored_witness :
    (∀ m ∈ [ViewerMsg.text "ping"], ∃ t, m = ViewerMsg.text t) ∧
    ((runViewer { producer := none, viewers := [] } 2 false
        [ViewerMsg.text "ping"]).outcome = LoopOutcome.running ∧
      2 ∈ (runViewer { producer := none, viewers := [] } 2 false
        [ViewerMsg.text "ping"]).final.viewers) :=
  ⟨fun m hm => ⟨"ping", by simpa using hm⟩,
   viewer_text_messages_ignored { producer := none, viewers := [] } 2
     [ViewerMsg.text "ping"] (fun m hm => ⟨"ping", by simpa using hm⟩)⟩

/-- C10.  Every fan-out walks the snapshot taken when it begins: whatever
membership changes land while the sends are in flight, the trace is the
snapshot's members, each exactly once — and both code sites, the frame
fan-out and the control broadcast, send to exactly their list(viewers)
snapshot. -/
theorem fanout_targets_snapshot (mk : ConnId → Event) (snapshot vs : List ConnId)
    (muts : List (List Mutation)) (data : List Nat) (msg : String)
    (fails : ConnId → Bool) :
    (snapshotFanOut mk snapshot muts vs).2 = snapshot.map mk ∧
    (frameFanOut vs data fails).1 = vs.map (fun v => Event.sendBytes v data) ∧
    (broadcast_control vs msg fails).1 = vs.map (fun v => Event.sendText v msg) := by
  refine ⟨?_, frameFanOut_fst vs data fails, broadcast_control_fst vs msg fails⟩
  induction snapshot generalizing muts vs with
  | nil => rfl
  | cons v rest ih => simp [snapshotFanOut, ih]

end ScreenShare
